import Mathlib

/-!
Shallow embedding of the PSP37 multi-token ledger (`src/data.rs`, `src/lib.rs`).

Modelling conventions:
* `AccountId` (an opaque 32-byte identifier in ink!) is modelled as `Nat`
  with decidable equality; the code only compares accounts for equality and
  uses them as mapping keys.
* `Balance = u128` is modelled as `Nat`; the only places where the 128-bit
  bound matters are `checked_sub` (underflow, bound-free) and
  `checked_add` (overflow against `u128MAX`), which are modelled explicitly.
* An ink! `Mapping K V` is modelled as `K → Option V` with pointwise
  `insert` / `remove` / `get` semantics.
* A mutating ledger operation `fn op(&mut self, ...) -> Result<T, E>` is
  modelled as a function `PSP37Data → ... → PSP37Data × Except E T`
  (the state component carries whatever writes happened before a `return`,
  exactly as the Rust `self` does), and an operation containing a reachable
  `unwrap()` panic is wrapped in `Option`, where `none` models the panic.
-/

/-- Opaque account identifier (`ink::primitives::AccountId`), modelled as a
natural number with decidable equality. -/
abbrev AccountId := Nat

/-- `TokenId` from src/data.rs: tagged union of unsigned integer widths or a byte
string, used only as a lookup key. Machine integers are modelled as `Nat`. -/
inductive TokenId where
  | U8 (v : Nat)
  | U16 (v : Nat)
  | U32 (v : Nat)
  | U64 (v : Nat)
  | U128 (v : Nat)
  | Bytes (v : List Nat)
deriving DecidableEq

/-- `Balance::MAX` = `u128::MAX` = 2^128 - 1. -/
def u128MAX : Nat := 2 ^ 128 - 1

/-- `u128::checked_sub`: `none` on underflow. -/
def checked_sub (a b : Nat) : Option Nat :=
  if b ≤ a then some (a - b) else none

/-- `u128::checked_add`: `none` on overflow past `u128::MAX`. -/
def checked_add (a b : Nat) : Option Nat :=
  if a + b ≤ u128MAX then some (a + b) else none

/-- Modelled from the spec: the crate declares `mod errors` and re-exports
`crate::PSP37Error`, but `errors.rs` is not among the provided sources.
Spec section 7 lists the error kinds, declared exhaustive: `TokenNotExists`,
`NotApproved`, `InsufficientBalance`. -/
inductive PSP37Error where
  | TokenNotExists
  | NotApproved
  | InsufficientBalance
deriving DecidableEq

/-- `PSP37Event` from src/data.rs. -/
inductive PSP37Event where
  | Transfer (src : Option AccountId) (dst : Option AccountId) (id : TokenId) (value : Nat)
  | TransferBatch (src : Option AccountId) (dst : Option AccountId)
      (ids_amounts : List (TokenId × Nat))
  | Approval (owner : AccountId) (operator : AccountId) (id : Option TokenId) (value : Nat)
  | AttributeSet (id : TokenId) (key : String) (data : String)
deriving DecidableEq

/-- `AllowanceValue` from src/data.rs. -/
inductive AllowanceValue where
  | Infinite
  | Finite (v : Nat)
  | None
deriving DecidableEq

/-- `Mapping::insert`. -/
def mapInsert {K V : Type} [DecidableEq K] (m : K → Option V) (k : K) (v : V) :
    K → Option V :=
  fun x => if x = k then some v else m x

/-- `Mapping::remove`. -/
def mapRemove {K V : Type} [DecidableEq K] (m : K → Option V) (k : K) :
    K → Option V :=
  fun x => if x = k then none else m x

/-- `PSP37Data` from src/data.rs: five mappings and one scalar counter. -/
structure PSP37Data where
  token_owner : TokenId → Option AccountId
  owned_serials_count : AccountId × TokenId → Option Nat
  owned_tokens_count_by_account : AccountId → Option Nat
  operator_approvals : AccountId × AccountId × Option TokenId → Option Nat
  total_supply_by_id : TokenId → Option Nat
  total_token_count : Nat

/-- `PSP37Data::new()` = `Default::default()`: all mappings empty, counter 0. -/
def PSP37Data.new : PSP37Data :=
  ⟨fun _ => none, fun _ => none, fun _ => none, fun _ => none, fun _ => none, 0⟩

/-- `PSP37Data::owner_of`. -/
def PSP37Data.owner_of (s : PSP37Data) (id : TokenId) : Option AccountId :=
  s.token_owner id

/-- `PSP37Data::balance_by_id`. -/
def PSP37Data.balance_by_id (s : PSP37Data) (owner : AccountId) (id : TokenId) : Nat :=
  (s.owned_serials_count (owner, id)).getD 0

/-- `PSP37Data::balance_by_account`. -/
def PSP37Data.balance_by_account (s : PSP37Data) (owner : AccountId) : Nat :=
  (s.owned_tokens_count_by_account owner).getD 0

/-- `PSP37Data::balance_of`. -/
def PSP37Data.balance_of (s : PSP37Data) (owner : AccountId) (id : Option TokenId) : Nat :=
  match id with
  | none => (s.owned_tokens_count_by_account owner).getD 0
  | some id => (s.owned_serials_count (owner, id)).getD 0

/-- `PSP37Data::total_supply`. -/
def PSP37Data.total_supply (s : PSP37Data) (id : Option TokenId) : Nat :=
  match id with
  | none => s.total_token_count
  | some id => (s.total_supply_by_id id).getD 0

/-- `PSP37Data::allowance`. -/
def PSP37Data.allowance (s : PSP37Data) (owner operator : AccountId)
    (id : Option TokenId) : Nat :=
  (s.operator_approvals (owner, operator, id)).getD 0

/-- `PSP37Data::allowance_value_wrapped`: the per-id entry wins; otherwise any
blanket entry counts as infinite; otherwise no allowance. -/
def PSP37Data.allowance_value_wrapped (s : PSP37Data) (owner operator : AccountId)
    (id : TokenId) : AllowanceValue :=
  match s.operator_approvals (owner, operator, some id) with
  | some v => AllowanceValue.Finite v
  | none =>
    match s.operator_approvals (owner, operator, none) with
    | some _ => AllowanceValue.Infinite
    | none => AllowanceValue.None

/-- `PSP37Data::approve`. -/
def PSP37Data.approve (s : PSP37Data) (owner operator : AccountId)
    (id : Option TokenId) (value : Nat) : PSP37Data × Except PSP37Error (List PSP37Event) :=
  if owner = operator then (s, Except.ok [])
  else
    let allowance_value : Nat :=
      match id with
      | none => u128MAX
      | some _ => value
    ({ s with operator_approvals := mapInsert s.operator_approvals (owner, operator, id) allowance_value },
      Except.ok [PSP37Event.Approval owner operator id allowance_value])

/-- `PSP37Data::transfer_internal`. `none` models the panic of
`to_balance.checked_add(1).unwrap()`. -/
def PSP37Data.transfer_internal (s : PSP37Data) (caller dst : AccountId) (id : TokenId)
    (value : Nat) (_dat : List Nat) :
    Option (PSP37Data × Except PSP37Error (List PSP37Event)) :=
  match s.token_owner id with
  | none => some (s, Except.error PSP37Error.TokenNotExists)
  | some owner =>
    if owner = dst ∨ value = 0 then some (s, Except.ok [])
    else if owner ≠ caller then some (s, Except.error PSP37Error.NotApproved)
    else
      let from_balance := s.balance_by_id owner id
      let from_token_balance := s.balance_by_account owner
      match checked_sub from_balance value with
      | none => some (s, Except.error PSP37Error.InsufficientBalance)
      | some balance_after =>
        let s1 : PSP37Data :=
          { s with owned_serials_count := mapInsert s.owned_serials_count (owner, id) balance_after }
        let s2 : PSP37Data :=
          if balance_after = 0 then
            { s1 with owned_tokens_count_by_account :=
                mapInsert s1.owned_tokens_count_by_account owner (from_token_balance - 1) }
          else s1
        let s3 : PSP37Data := { s2 with token_owner := mapRemove s2.token_owner id }
        let s4 : PSP37Data := { s3 with token_owner := mapInsert s3.token_owner id dst }
        let to_balance := s4.balance_of dst (some id)
        match checked_add to_balance 1 with
        | none => none
        | some nb =>
          some ({ s4 with owned_serials_count := mapInsert s4.owned_serials_count (dst, id) nb },
            Except.ok [PSP37Event.Transfer (some caller) (some dst) id value])

/-- `PSP37Data::handle_transfer_allowance_internal`. `saturating_sub` is `Nat`
subtraction (truncated at zero). -/
def PSP37Data.handle_transfer_allowance_internal (s : PSP37Data)
    (owner caller : AccountId) (id : TokenId) (value : Nat) :
    PSP37Data × Except PSP37Error Unit :=
  match s.allowance_value_wrapped owner caller id with
  | AllowanceValue.Finite allowance_balance =>
    if owner ≠ caller ∧ allowance_balance < value then
      (s, Except.error PSP37Error.NotApproved)
    else if owner ≠ caller then
      ({ s with operator_approvals :=
          mapInsert s.operator_approvals (owner, caller, some id) (allowance_balance - value) },
        Except.ok ())
    else (s, Except.ok ())
  | _ => (s, Except.ok ())

/-- `PSP37Data::transfer`. -/
def PSP37Data.transfer (s : PSP37Data) (caller dst : AccountId) (id : TokenId)
    (value : Nat) (dat : List Nat) :
    Option (PSP37Data × Except PSP37Error (List PSP37Event)) :=
  s.transfer_internal caller dst id value dat

/-- `PSP37Data::transfer_from`. Note the order of writes in the source: the
source balance (and, when it reaches zero, the distinct-token count) is
written *before* `handle_transfer_allowance_internal` runs, so a
`NotApproved` error propagated by `?` leaves those writes in place.
`none` models the panic of `to_balance.checked_add(1).unwrap()`. -/
def PSP37Data.transfer_from (s : PSP37Data) (caller dst : AccountId) (id : TokenId)
    (value : Nat) (_dat : List Nat) :
    Option (PSP37Data × Except PSP37Error (List PSP37Event)) :=
  match s.token_owner id with
  | none => some (s, Except.error PSP37Error.TokenNotExists)
  | some owner =>
    if owner = dst ∨ value = 0 then some (s, Except.ok [])
    else
      let from_balance := s.balance_by_id owner id
      let from_token_balance := s.balance_by_account owner
      match checked_sub from_balance value with
      | none => some (s, Except.error PSP37Error.InsufficientBalance)
      | some balance_after =>
        let s1 : PSP37Data :=
          { s with owned_serials_count := mapInsert s.owned_serials_count (owner, id) balance_after }
        let s2 : PSP37Data :=
          if balance_after = 0 then
            { s1 with owned_tokens_count_by_account :=
                mapInsert s1.owned_tokens_count_by_account owner (from_token_balance - 1) }
          else s1
        match s2.handle_transfer_allowance_internal owner caller id value with
        | (s3, Except.error e) => some (s3, Except.error e)
        | (s3, Except.ok _) =>
          let s4 : PSP37Data := { s3 with token_owner := mapRemove s3.token_owner id }
          let s5 : PSP37Data := { s4 with token_owner := mapInsert s4.token_owner id dst }
          let to_balance := s5.balance_of dst (some id)
          match checked_add to_balance 1 with
          | none => none
          | some nb =>
            some ({ s5 with owned_serials_count := mapInsert s5.owned_serials_count (dst, id) nb },
              Except.ok [PSP37Event.Transfer (some caller) (some dst) id value])

/-- Contract-level `Token::transfer_from` (src/lib.rs): the ink! message has
access to the authenticated environment caller (`self.env().caller()`), but
forwards the *argument* `src` as the caller/delegate to the ledger and never
reads `envCaller`. On success the ledger events are emitted; on error the
`?` short-circuits and no events are emitted. -/
def Token.transfer_from (_envCaller : AccountId) (t : PSP37Data)
    (src dst : AccountId) (id : TokenId) (value : Nat) (dat : List Nat) :
    Option (PSP37Data × List PSP37Event × Except PSP37Error Unit) :=
  match t.transfer_from src dst id value dat with
  | none => none
  | some (s', Except.ok evs) => some (s', evs, Except.ok ())
  | some (s', Except.error e) => some (s', [], Except.error e)

/-- Contract-level `Token::transfer` (src/lib.rs): here the authenticated
environment caller *is* passed to the ledger. -/
def Token.transfer (envCaller : AccountId) (t : PSP37Data) (dst : AccountId)
    (id : TokenId) (value : Nat) (dat : List Nat) :
    Option (PSP37Data × List PSP37Event × Except PSP37Error Unit) :=
  match t.transfer envCaller dst id value dat with
  | none => none
  | some (s', Except.ok evs) => some (s', evs, Except.ok ())
  | some (s', Except.error e) => some (s', [], Except.error e)

/-- Contract-level `Token::approve` (src/lib.rs): the authenticated
environment caller is passed as the owner. -/
def Token.approve (envCaller : AccountId) (t : PSP37Data) (operator : AccountId)
    (id : Option TokenId) (value : Nat) :
    PSP37Data × List PSP37Event × Except PSP37Error Unit :=
  match t.approve envCaller operator id value with
  | (s', Except.ok evs) => (s', evs, Except.ok ())
  | (s', Except.error e) => (s', [], Except.error e)

/-- A call to one of the three mutating ledger operations. -/
inductive OpCall where
  | approveOp (owner operator : AccountId) (id : Option TokenId) (value : Nat)
  | transferOp (caller dst : AccountId) (id : TokenId) (value : Nat) (dat : List Nat)
  | transferFromOp (caller dst : AccountId) (id : TokenId) (value : Nat) (dat : List Nat)

/-- Run a ledger operation on a state. `approve` has no panic and no error,
so it is wrapped in `some` to share the result type. -/
def runOp (s : PSP37Data) : OpCall → Option (PSP37Data × Except PSP37Error (List PSP37Event))
  | OpCall.approveOp owner operator id value => some (s.approve owner operator id value)
  | OpCall.transferOp caller dst id value dat => s.transfer caller dst id value dat
  | OpCall.transferFromOp caller dst id value dat => s.transfer_from caller dst id value dat

/-- The post-state of a non-panicking operation result (helper for witnesses). -/
def postOf (r : Option (PSP37Data × Except PSP37Error (List PSP37Event))) : PSP37Data :=
  match r with
  | some (s, _) => s
  | none => PSP37Data.new

/-! Concrete states used by counterexamples and witnesses. -/

/-- Account 0 owns id `U8 1` with per-id balance 2; account 2 holds a finite
allowance of 1 for that id from account 0. -/
def c1s : PSP37Data :=
  { token_owner := fun k => if k = TokenId.U8 1 then some 0 else none
    owned_serials_count := fun k => if k = (0, TokenId.U8 1) then some 2 else none
    owned_tokens_count_by_account := fun _ => none
    operator_approvals := fun k => if k = (0, 2, some (TokenId.U8 1)) then some 1 else none
    total_supply_by_id := fun _ => none
    total_token_count := 0 }

/-- `c1s` after the source-balance writes of `transfer_from` (balance driven to
zero, token-type count saturated at zero). -/
def c1s' : PSP37Data :=
  { c1s with
    owned_serials_count := mapInsert c1s.owned_serials_count (0, TokenId.U8 1) 0
    owned_tokens_count_by_account := mapInsert c1s.owned_tokens_count_by_account 0 0 }

/-- Account 0 owns id `U8 1` with balance 1; account 1 already holds the
maximal `u128` per-id balance for that id; no allowances recorded. -/
def c2s : PSP37Data :=
  { token_owner := fun k => if k = TokenId.U8 1 then some 0 else none
    owned_serials_count := fun k => if k = (0, TokenId.U8 1) then some 1
      else if k = (1, TokenId.U8 1) then some u128MAX else none
    owned_tokens_count_by_account := fun _ => none
    operator_approvals := fun _ => none
    total_supply_by_id := fun _ => none
    total_token_count := 0 }

/-- Account 0 owns id `U8 1` with balance 2; no allowances recorded. -/
def w2s : PSP37Data :=
  { token_owner := fun k => if k = TokenId.U8 1 then some 0 else none
    owned_serials_count := fun k => if k = (0, TokenId.U8 1) then some 2 else none
    owned_tokens_count_by_account := fun k => if k = 0 then some 1 else none
    operator_approvals := fun _ => none
    total_supply_by_id := fun _ => none
    total_token_count := 0 }

/-- Account 0 owns id `U8 1` with balance 1; account 1 already holds the
maximal `u128` per-id balance for that id. -/
def c3s : PSP37Data :=
  { token_owner := fun k => if k = TokenId.U8 1 then some 0 else none
    owned_serials_count := fun k => if k = (0, TokenId.U8 1) then some 1
      else if k = (1, TokenId.U8 1) then some u128MAX else none
    owned_tokens_count_by_account := fun k => if k = 0 then some 1 else none
    operator_approvals := fun _ => none
    total_supply_by_id := fun _ => none
    total_token_count := 0 }

/-- Account 0 owns id `U8 1` with balance 5. -/
def w3s : PSP37Data :=
  { token_owner := fun k => if k = TokenId.U8 1 then some 0 else none
    owned_serials_count := fun k => if k = (0, TokenId.U8 1) then some 5 else none
    owned_tokens_count_by_account := fun k => if k = 0 then some 1 else none
    operator_approvals := fun _ => none
    total_supply_by_id := fun _ => none
    total_token_count := 0 }

/-- Account 4 owns id `U8 1` with balance 3. -/
def w4s : PSP37Data :=
  { token_owner := fun k => if k = TokenId.U8 1 then some 4 else none
    owned_serials_count := fun k => if k = (4, TokenId.U8 1) then some 3 else none
    owned_tokens_count_by_account := fun _ => none
    operator_approvals := fun _ => none
    total_supply_by_id := fun _ => none
    total_token_count := 0 }

/-- Account 0 owns id `U8 1` with balance 5; account 3 even holds a large
finite allowance, which the direct transfer path must ignore. -/
def w6s : PSP37Data :=
  { token_owner := fun k => if k = TokenId.U8 1 then some 0 else none
    owned_serials_count := fun k => if k = (0, TokenId.U8 1) then some 5 else none
    owned_tokens_count_by_account := fun _ => none
    operator_approvals := fun k => if k = (0, 3, some (TokenId.U8 1)) then some 100 else none
    total_supply_by_id := fun _ => none
    total_token_count := 0 }

/-- Account 0 owns id `U8 1` with balance 7; account 2 holds a finite
allowance of 5 for that id. -/
def c7s : PSP37Data :=
  { token_owner := fun k => if k = TokenId.U8 1 then some 0 else none
    owned_serials_count := fun k => if k = (0, TokenId.U8 1) then some 7 else none
    owned_tokens_count_by_account := fun _ => none
    operator_approvals := fun k => if k = (0, 2, some (TokenId.U8 1)) then some 5 else none
    total_supply_by_id := fun _ => none
    total_token_count := 0 }

/-- Account 0 owns id `U8 1` with balance 5; account 2 holds a finite
allowance of 4 for that id. -/
def w7s : PSP37Data :=
  { token_owner := fun k => if k = TokenId.U8 1 then some 0 else none
    owned_serials_count := fun k => if k = (0, TokenId.U8 1) then some 5 else none
    owned_tokens_count_by_account := fun k => if k = 0 then some 1 else none
    operator_approvals := fun k => if k = (0, 2, some (TokenId.U8 1)) then some 4 else none
    total_supply_by_id := fun _ => none
    total_token_count := 0 }

/-- Account 0 owns id `U8 1` with balance 2; account 1 already holds the
maximal `u128` per-id balance for that id. -/
def c8s : PSP37Data :=
  { token_owner := fun k => if k = TokenId.U8 1 then some 0 else none
    owned_serials_count := fun k => if k = (0, TokenId.U8 1) then some 2
      else if k = (1, TokenId.U8 1) then some u128MAX else none
    owned_tokens_count_by_account := fun _ => none
    operator_approvals := fun _ => none
    total_supply_by_id := fun _ => none
    total_token_count := 0 }

/-- Account 0 owns id `U8 1` with balance 2; destination balances small. -/
def w8s : PSP37Data :=
  { token_owner := fun k => if k = TokenId.U8 1 then some 0 else none
    owned_serials_count := fun k => if k = (0, TokenId.U8 1) then some 2 else none
    owned_tokens_count_by_account := fun _ => none
    operator_approvals := fun _ => none
    total_supply_by_id := fun _ => none
    total_token_count := 0 }

/-! Helper lemmas shared by the claim theorems. -/
/-- Reading a map at the freshly inserted key. -/
theorem mapInsert_eq {K V : Type} [DecidableEq K] (m : K → Option V) (k : K) (v : V) :
    mapInsert m k v k = some v := by simp [mapInsert]

/-- Reading a map at a key other than the inserted one. -/
theorem mapInsert_ne {K V : Type} [DecidableEq K] (m : K → Option V) (k x : K) (v : V)
    (h : x ≠ k) : mapInsert m k v x = m x := by simp [mapInsert, h]

/-- Frame conditions of `transfer_internal`: allowances, per-id supply and the counter are never touched, and every error leaves the state entirely unchanged. -/
theorem transfer_internal_frame (s : PSP37Data) (caller dst : AccountId) (id : TokenId)
    (value : Nat) (dat : List Nat) (s' : PSP37Data) (r : Except PSP37Error (List PSP37Event))
    (h : s.transfer_internal caller dst id value dat = some (s', r)) :
    s'.operator_approvals = s.operator_approvals
    ∧ s'.total_supply_by_id = s.total_supply_by_id
    ∧ s'.total_token_count = s.total_token_count
    ∧ (∀ e, r = Except.error e → s' = s) := by
  simp only [PSP37Data.transfer_internal] at h
  split at h
  · simp_all
  · split at h
    · simp_all
    · split at h
      · simp_all
      · split at h
        · simp_all
        · split at h
          · simp_all
          · split at h
            · simp only [Option.some.injEq, Prod.mk.injEq] at h
              obtain ⟨h1, h2⟩ := h
              subst h1; subst h2
              exact ⟨rfl, rfl, rfl, fun e he => by simp at he⟩
            · simp only [Option.some.injEq, Prod.mk.injEq] at h
              obtain ⟨h1, h2⟩ := h
              subst h1; subst h2
              exact ⟨rfl, rfl, rfl, fun e he => by simp at he⟩

/-- Frame conditions of `handle_transfer_allowance_internal`: only `operator_approvals` can change, the only error is `NotApproved`, and an error leaves the state unchanged. -/
theorem handle_allowance_frame (s : PSP37Data) (owner caller : AccountId) (id : TokenId)
    (value : Nat) (s' : PSP37Data) (r : Except PSP37Error Unit)
    (h : s.handle_transfer_allowance_internal owner caller id value = (s', r)) :
    s'.token_owner = s.token_owner
    ∧ s'.owned_serials_count = s.owned_serials_count
    ∧ s'.owned_tokens_count_by_account = s.owned_tokens_count_by_account
    ∧ s'.total_supply_by_id = s.total_supply_by_id
    ∧ s'.total_token_count = s.total_token_count
    ∧ (∀ e, r = Except.error e → e = PSP37Error.NotApproved ∧ s' = s) := by
  simp only [PSP37Data.handle_transfer_allowance_internal] at h
  split at h
  · split at h
    · simp only [Prod.mk.injEq] at h
      obtain ⟨h1, h2⟩ := h
      subst h1; subst h2
      exact ⟨rfl, rfl, rfl, rfl, rfl, fun e he => by simp at he; exact ⟨he.symm, rfl⟩⟩
    · split at h
      · simp only [Prod.mk.injEq] at h
        obtain ⟨h1, h2⟩ := h
        subst h1; subst h2
        exact ⟨rfl, rfl, rfl, rfl, rfl, fun e he => by simp at he⟩
      · simp only [Prod.mk.injEq] at h
        obtain ⟨h1, h2⟩ := h
        subst h1; subst h2
        exact ⟨rfl, rfl, rfl, rfl, rfl, fun e he => by simp at he⟩
  · simp only [Prod.mk.injEq] at h
    obtain ⟨h1, h2⟩ := h
    subst h1; subst h2
    exact ⟨rfl, rfl, rfl, rfl, rfl, fun e he => by simp at he⟩

/-- Frame conditions of `transfer_from`: per-id supply and the counter are never touched; on an error, `token_owner` and `operator_approvals` are unchanged, and any error other than `NotApproved` leaves the state entirely unchanged. -/
theorem transfer_from_frame (s : PSP37Data) (caller dst : AccountId) (id : TokenId)
    (value : Nat) (dat : List Nat) (s' : PSP37Data) (r : Except PSP37Error (List PSP37Event))
    (h : s.transfer_from caller dst id value dat = some (s', r)) :
    s'.total_supply_by_id = s.total_supply_by_id
    ∧ s'.total_token_count = s.total_token_count
    ∧ (∀ e, r = Except.error e →
        s'.token_owner = s.token_owner ∧ s'.operator_approvals = s.operator_approvals
        ∧ (e ≠ PSP37Error.NotApproved → s' = s)) := by
  simp only [PSP37Data.transfer_from] at h
  split at h
  · simp only [Option.some.injEq, Prod.mk.injEq] at h
    obtain ⟨h1, h2⟩ := h
    subst h1; subst h2
    exact ⟨rfl, rfl, fun e he => by simp at he; subst he; exact ⟨rfl, rfl, fun _ => rfl⟩⟩
  · split at h
    · simp only [Option.some.injEq, Prod.mk.injEq] at h
      obtain ⟨h1, h2⟩ := h
      subst h1; subst h2
      exact ⟨rfl, rfl, fun e he => by simp at he⟩
    · split at h
      · simp only [Option.some.injEq, Prod.mk.injEq] at h
        obtain ⟨h1, h2⟩ := h
        subst h1; subst h2
        exact ⟨rfl, rfl, fun e he => by simp at he; subst he; exact ⟨rfl, rfl, fun _ => rfl⟩⟩
      · -- checked_sub succeeded; split on the allowance-handler result
        split at h
        · -- handler returned an error: partial writes stay
          rename_i s3 e3 heq
          simp only [Option.some.injEq, Prod.mk.injEq] at h
          obtain ⟨h1, h2⟩ := h
          subst h1; subst h2
          split at heq
          · have hf := handle_allowance_frame _ _ _ _ _ _ _ heq
            refine ⟨by rw [hf.2.2.2.1], by rw [hf.2.2.2.2.1], fun e he => ?_⟩
            simp only [Except.error.injEq] at he; subst he
            have hna := hf.2.2.2.2.2 e3 rfl
            exact ⟨by rw [hf.1], by rw [hf.2.1] at *; rw [(hf.2.2.2.2.2 e3 rfl).2], fun hne => absurd hna.1 hne⟩
          · have hf := handle_allowance_frame _ _ _ _ _ _ _ heq
            refine ⟨by rw [hf.2.2.2.1], by rw [hf.2.2.2.2.1], fun e he => ?_⟩
            simp only [Except.error.injEq] at he; subst he
            have hna := hf.2.2.2.2.2 e3 rfl
            exact ⟨by rw [hf.1], by rw [(hf.2.2.2.2.2 e3 rfl).2], fun hne => absurd hna.1 hne⟩
        · -- handler succeeded; split on checked_add
          rename_i s3 u3 heq
          split at h
          · exact absurd h (by simp)
          · simp only [Option.some.injEq, Prod.mk.injEq] at h
            obtain ⟨h1, h2⟩ := h
            subst h1; subst h2
            split at heq
            · have hf := handle_allowance_frame _ _ _ _ _ _ _ heq
              exact ⟨by rw [hf.2.2.2.1], by rw [hf.2.2.2.2.1], fun e he => by simp at he⟩
            · have hf := handle_allowance_frame _ _ _ _ _ _ _ heq
              exact ⟨by rw [hf.2.2.2.1], by rw [hf.2.2.2.2.1], fun e he => by simp at he⟩

/-- `approve` touches only `operator_approvals` and never returns an error. -/
theorem approve_spec (s : PSP37Data) (owner operator : AccountId) (id : Option TokenId)
    (value : Nat) :
    (s.approve owner operator id value).1.token_owner = s.token_owner
    ∧ (s.approve owner operator id value).1.owned_serials_count = s.owned_serials_count
    ∧ (s.approve owner operator id value).1.owned_tokens_count_by_account = s.owned_tokens_count_by_account
    ∧ (s.approve owner operator id value).1.total_supply_by_id = s.total_supply_by_id
    ∧ (s.approve owner operator id value).1.total_token_count = s.total_token_count
    ∧ ∀ e, (s.approve owner operator id value).2 ≠ Except.error e := by
  simp only [PSP37Data.approve]
  split
  · exact ⟨rfl, rfl, rfl, rfl, rfl, fun e he => by simp at he⟩
  · exact ⟨rfl, rfl, rfl, rfl, rfl, fun e he => by simp at he⟩

/-- No ledger operation touches `total_supply_by_id` or `total_token_count`. -/
theorem runOp_supply_frame (s : PSP37Data) (c : OpCall) (s' : PSP37Data)
    (r : Except PSP37Error (List PSP37Event)) (h : runOp s c = some (s', r)) :
    s'.total_supply_by_id = s.total_supply_by_id
    ∧ s'.total_token_count = s.total_token_count := by
  cases c with
  | approveOp ow op oid v =>
    simp only [runOp, Option.some.injEq] at h
    have h1 : s' = (s.approve ow op oid v).1 := by rw [h]
    subst h1
    exact ⟨(approve_spec s ow op oid v).2.2.2.1, (approve_spec s ow op oid v).2.2.2.2.1⟩
  | transferOp caller dst id value dat =>
    simp only [runOp] at h
    have hf := transfer_internal_frame s caller dst id value dat s' _ h
    exact ⟨hf.2.1, hf.2.2.1⟩
  | transferFromOp caller dst id value dat =>
    simp only [runOp] at h
    have hf := transfer_from_frame s caller dst id value dat s' _ h
    exact ⟨hf.1, hf.2.1⟩

/-- `transfer` cannot hit the `unwrap` when the destination per-id balance is below `u128::MAX`. -/
theorem transfer_total (s : PSP37Data) (caller dst : AccountId) (id : TokenId)
    (value : Nat) (dat : List Nat)
    (h5 : s.balance_of dst (some id) < u128MAX) :
    s.transfer caller dst id value dat ≠ none := by
  simp only [PSP37Data.balance_of] at h5
  simp only [PSP37Data.transfer, PSP37Data.transfer_internal]
  split
  · simp
  · rename_i owner hown
    split
    · simp
    · rename_i hcond
      split
      · simp
      · split
        · rename_i hc; simp
        · rename_i ba hba
          have hod : ¬(owner = dst) := fun hh => hcond (Or.inl hh)
          have hdst : (mapInsert s.owned_serials_count (owner, id) ba (dst, id)).getD 0
              = (s.owned_serials_count (dst, id)).getD 0 := by
            rw [mapInsert_ne _ _ _ _ (by simp [Prod.ext_iff]; intro hh; exact absurd hh.symm hod)]
          split
          · rename_i heq
            exfalso
            split at heq <;>
            · simp only [PSP37Data.balance_of] at heq
              rw [hdst] at heq
              simp only [checked_add] at heq
              split at heq
              · cases heq
              · rename_i hgt
                omega
          · simp

/-- `transfer_from` cannot hit the `unwrap` when the destination per-id balance is below `u128::MAX`. -/
theorem transfer_from_total (s : PSP37Data) (caller dst : AccountId) (id : TokenId)
    (value : Nat) (dat : List Nat)
    (h5 : s.balance_of dst (some id) < u128MAX) :
    s.transfer_from caller dst id value dat ≠ none := by
  simp only [PSP37Data.balance_of] at h5
  simp only [PSP37Data.transfer_from]
  split
  · simp
  · rename_i owner hown
    split
    · simp
    · rename_i hcond
      split
      · simp
      · rename_i ba hba
        have hod : ¬(owner = dst) := fun hh => hcond (Or.inl hh)
        have hdst : (mapInsert s.owned_serials_count (owner, id) ba (dst, id)).getD 0
            = (s.owned_serials_count (dst, id)).getD 0 := by
          rw [mapInsert_ne _ _ _ _ (by simp [Prod.ext_iff]; intro hh; exact absurd hh.symm hod)]
        split
        · simp
        · rename_i s3 u heq
          have hser := (handle_allowance_frame _ _ _ _ _ _ _ heq).2.1
          split
          · rename_i heq2
            exfalso
            simp only [PSP37Data.balance_of] at heq2
            rw [hser] at heq2
            by_cases hz : ba = 0
            · subst hz
              simp only [reduceIte] at heq2
              rw [hdst] at heq2
              simp only [checked_add] at heq2
              split at heq2
              · cases heq2
              · rename_i hgt
                omega
            · simp only [if_neg hz] at heq2
              rw [hdst] at heq2
              simp only [checked_add] at heq2
              split at heq2
              · cases heq2
              · rename_i hgt
                omega
          · simp

/-- When no finite allowance is insufficient, the allowance handler succeeds and leaves the per-id balances untouched. -/
theorem handle_allowance_pass (s : PSP37Data) (owner caller : AccountId) (id : TokenId)
    (value : Nat)
    (hallow : ∀ fin, s.allowance_value_wrapped owner caller id = AllowanceValue.Finite fin →
        caller = owner ∨ value ≤ fin) :
    ∃ s', s.handle_transfer_allowance_internal owner caller id value = (s', Except.ok ())
      ∧ s'.owned_serials_count = s.owned_serials_count := by
  simp only [PSP37Data.handle_transfer_allowance_internal]
  split
  · rename_i ab hw
    have hp := hallow ab hw
    split
    · rename_i hc
      exfalso
      obtain ⟨hne, hlt⟩ := hc
      rcases hp with h | h
      · exact hne h.symm
      · omega
    · split
      · exact ⟨_, rfl, rfl⟩
      · exact ⟨s, rfl, rfl⟩
  · exact ⟨s, rfl, rfl⟩

/-- `transfer` hits the `checked_add(1).unwrap()` when the destination per-id balance is exactly `u128::MAX` and the transfer would otherwise succeed. -/
theorem transfer_overflow (s : PSP37Data) (owner dst : AccountId) (id : TokenId)
    (value : Nat) (dat : List Nat)
    (hown : s.token_owner id = some owner) (hod : dst ≠ owner) (hv : 0 < value)
    (hbal : value ≤ s.balance_of owner (some id))
    (hmax : s.balance_of dst (some id) = u128MAX) :
    s.transfer owner dst id value dat = none := by
  simp only [PSP37Data.balance_of] at hbal hmax
  have hcond : ¬(owner = dst ∨ value = 0) := by
    rintro (hh | hz)
    · exact hod hh.symm
    · omega
  have hsub : checked_sub (s.balance_by_id owner id) value
      = some (s.balance_by_id owner id - value) := by
    simp only [checked_sub]
    rw [if_pos (show value ≤ s.balance_by_id owner id from hbal)]
  simp only [PSP37Data.transfer, PSP37Data.transfer_internal, hown, if_neg hcond,
    ne_eq, not_true_eq_false, if_neg, hsub, ite_not]
  by_cases hz : s.balance_by_id owner id - value = 0 <;>
  · simp only [hz, reduceIte, PSP37Data.balance_of, mapInsert, mapRemove, checked_add,
      Prod.mk.injEq, hod, ne_eq, and_true, false_and, and_false, if_false]
    rw [if_neg (show ¬((s.owned_serials_count (dst, id)).getD 0 + 1 ≤ u128MAX) by omega)]

/-- `transfer_from` hits the `checked_add(1).unwrap()` when the destination per-id balance is exactly `u128::MAX` and the transfer would otherwise succeed. -/
theorem transfer_from_overflow (s : PSP37Data) (caller dst owner : AccountId) (id : TokenId)
    (value : Nat) (dat : List Nat)
    (hown : s.token_owner id = some owner) (hod : dst ≠ owner) (hv : 0 < value)
    (hbal : value ≤ s.balance_of owner (some id))
    (hmax : s.balance_of dst (some id) = u128MAX)
    (hallow : ∀ fin, s.allowance_value_wrapped owner caller id = AllowanceValue.Finite fin →
        caller = owner ∨ value ≤ fin) :
    s.transfer_from caller dst id value dat = none := by
  simp only [PSP37Data.balance_of] at hbal hmax
  have hcond : ¬(owner = dst ∨ value = 0) := by
    rintro (hh | hz)
    · exact hod hh.symm
    · omega
  have hsub : checked_sub (s.balance_by_id owner id) value
      = some (s.balance_by_id owner id - value) := by
    simp only [checked_sub]
    rw [if_pos (show value ≤ s.balance_by_id owner id from hbal)]
  simp only [PSP37Data.transfer_from, hown, if_neg hcond, hsub]
  by_cases hz : s.balance_by_id owner id - value = 0
  · simp only [hz, reduceIte]
    obtain ⟨s3, hh, hser⟩ := handle_allowance_pass
      { s with
          owned_serials_count := mapInsert s.owned_serials_count (owner, id) 0,
          owned_tokens_count_by_account :=
            mapInsert s.owned_tokens_count_by_account owner (s.balance_by_account owner - 1) }
      owner caller id value hallow
    rw [hh]
    simp only [PSP37Data.balance_of, hser]
    rw [mapInsert_ne _ _ _ _ (by simp [Prod.ext_iff]; intro hh2; exact absurd hh2.symm (fun he => hod he.symm))]
    simp only [checked_add]
    rw [if_neg (by omega)]
  · simp only [hz, reduceIte]
    obtain ⟨s3, hh, hser⟩ := handle_allowance_pass
      { s with owned_serials_count :=
          mapInsert s.owned_serials_count (owner, id) (s.balance_by_id owner id - value) }
      owner caller id value hallow
    rw [hh]
    simp only [PSP37Data.balance_of, hser]
    rw [mapInsert_ne _ _ _ _ (by simp [Prod.ext_iff]; intro hh2; exact absurd hh2.symm (fun he => hod he.symm))]
    simp only [checked_add]
    rw [if_neg (by omega)]

/-- Characterization of a successful run of the allowance handler. -/
theorem handle_allowance_ok_cases (s : PSP37Data) (owner caller : AccountId) (id : TokenId)
    (value : Nat) (s' : PSP37Data) (u : Unit)
    (h : s.handle_transfer_allowance_internal owner caller id value = (s', Except.ok u)) :
    (s.allowance_value_wrapped owner caller id = AllowanceValue.Infinite → s' = s)
    ∧ (s.allowance_value_wrapped owner caller id = AllowanceValue.None → s' = s)
    ∧ (caller = owner → s' = s)
    ∧ (∀ fin, s.allowance_value_wrapped owner caller id = AllowanceValue.Finite fin →
        caller ≠ owner →
        value ≤ fin
        ∧ s' = { s with
            operator_approvals := mapInsert s.operator_approvals (owner, caller, some id) (fin - value) }) := by
  simp only [PSP37Data.handle_transfer_allowance_internal] at h
  split at h
  · rename_i ab hw
    split at h
    · simp at h
    · rename_i hc
      split at h
      · rename_i hoc
        simp only [Prod.mk.injEq] at h
        obtain ⟨h1, _⟩ := h
        subst h1
        refine ⟨fun hinf => absurd hinf (by simp [hw]),
          fun hnone => absurd hnone (by simp [hw]),
          fun hceq => absurd hceq.symm hoc, ?_⟩
        intro fin hfin hco
        rw [hw] at hfin
        cases hfin
        constructor
        · by_contra hlt
          exact hc ⟨hoc, by omega⟩
        · rfl
      · rename_i hoc
        have hoe : owner = caller := by
          by_contra hx
          exact hoc hx
        simp only [Prod.mk.injEq] at h
        obtain ⟨h1, _⟩ := h
        subst h1
        exact ⟨fun _ => rfl, fun _ => rfl, fun _ => rfl,
          fun fin hfin hco => absurd hoe.symm hco⟩
  · rename_i hw
    simp only [Prod.mk.injEq] at h
    obtain ⟨h1, _⟩ := h
    subst h1
    refine ⟨fun _ => rfl, fun _ => rfl, fun _ => rfl, ?_⟩
    intro fin hfin hco
    exact absurd hfin (hw fin)


/-! Claim theorems, counterexamples and witnesses. -/

/-- C1: the claim that every error path of approve, transfer and transfer_from leaves all five mappings and the counter unchanged fails on the NotApproved path of transfer_from, which runs after the source-balance writes. Starting from `c1s`, the delegated transfer of 2 units against a finite allowance of 1 returns NotApproved with the source per-id balance already overwritten from 2 to 0. -/
theorem C1_counterexample :
    PSP37Data.transfer_from c1s 2 1 (TokenId.U8 1) 2 []
        = some (c1s', Except.error PSP37Error.NotApproved)
    ∧ c1s'.owned_serials_count (0, TokenId.U8 1) = some 0
    ∧ c1s.owned_serials_count (0, TokenId.U8 1) = some 2 := ⟨rfl, rfl, rfl⟩

/-- C1 (amended): on every error returned by a ledger operation, `token_owner`, `operator_approvals`, `total_supply_by_id` and `total_token_count` are unchanged; every error other than NotApproved leaves the state entirely unchanged; every error of the direct transfer leaves the state entirely unchanged; and approve never returns an error. Only the NotApproved path of transfer_from can leave partial writes, and those are confined to `owned_serials_count` and `owned_tokens_count_by_account`. -/
theorem C1_theorem (s : PSP37Data) (c : OpCall) (s' : PSP37Data) (e : PSP37Error)
    (h : runOp s c = some (s', Except.error e)) :
    s'.token_owner = s.token_owner ∧ s'.operator_approvals = s.operator_approvals
    ∧ s'.total_supply_by_id = s.total_supply_by_id ∧ s'.total_token_count = s.total_token_count
    ∧ (e ≠ PSP37Error.NotApproved → s' = s)
    ∧ (∀ caller dst id value dat, c = OpCall.transferOp caller dst id value dat → s' = s)
    ∧ (∀ owner operator oid value, c ≠ OpCall.approveOp owner operator oid value) := by
  cases c with
  | approveOp ow op oid v =>
    exfalso
    simp only [runOp, Option.some.injEq] at h
    exact (approve_spec s ow op oid v).2.2.2.2.2 e (by rw [h])
  | transferOp caller dst id value dat =>
    simp only [runOp] at h
    have hf := transfer_internal_frame s caller dst id value dat s' _ h
    have hs : s' = s := hf.2.2.2 e rfl
    subst hs
    refine ⟨rfl, rfl, rfl, rfl, fun _ => rfl, fun _ _ _ _ _ _ => rfl, ?_⟩
    intro _ _ _ _ hc
    cases hc
  | transferFromOp caller dst id value dat =>
    simp only [runOp] at h
    have hf := transfer_from_frame s caller dst id value dat s' _ h
    have he := hf.2.2 e rfl
    refine ⟨he.1, he.2.1, hf.1, hf.2.1, fun hne => he.2.2 hne, ?_, ?_⟩
    · intro _ _ _ _ _ hc
      cases hc
    · intro _ _ _ _ hc
      cases hc

/-- C1 witness: the amended theorem applied to the concrete NotApproved run of transfer_from from `c1s`. -/
theorem C1_witness :
    c1s'.token_owner = c1s.token_owner ∧ c1s'.operator_approvals = c1s.operator_approvals := by
  have h := C1_theorem c1s (OpCall.transferFromOp 2 1 (TokenId.U8 1) 2 []) c1s'
      PSP37Error.NotApproved rfl
  exact ⟨h.1, h.2.1⟩

/-- C2: a caller with no recorded allowance who is not the owner is indeed not rejected, but the claim that the call always succeeds under the stated conditions fails when the destination per-id balance is `u128::MAX`: from `c2s` all stated premises hold, yet transfer_from hits the unwrap (modelled as `none`) instead of succeeding. -/
theorem C2_counterexample :
    c2s.operator_approvals (0, 2, some (TokenId.U8 1)) = none
    ∧ c2s.operator_approvals (0, 2, none) = none
    ∧ c2s.token_owner (TokenId.U8 1) = some 0
    ∧ (2 : AccountId) ≠ 0 ∧ (1 : AccountId) ≠ 0
    ∧ 0 < (1 : Nat) ∧ 1 ≤ c2s.balance_of 0 (some (TokenId.U8 1))
    ∧ PSP37Data.transfer_from c2s 2 1 (TokenId.U8 1) 1 [] = none :=
  ⟨rfl, rfl, rfl, by decide, by decide, by decide, by decide, rfl⟩

/-- C2 (amended): for every state and caller with no per-id and no blanket allowance entry who is not the owner of id, when id has an owner, the destination differs from the owner, value is positive, the owner per-id balance is at least value, and additionally the destination per-id balance is strictly below `u128::MAX`, transfer_from succeeds, emits exactly one Transfer event with the supplied value, moves ownership to the destination, debits the source by value and credits the destination by exactly one. -/
theorem C2_theorem (s : PSP37Data) (caller dst owner : AccountId)
    (id : TokenId) (value : Nat) (dat : List Nat)
    (ha1 : s.operator_approvals (owner, caller, some id) = none)
    (ha2 : s.operator_approvals (owner, caller, none) = none)
    (hco : caller ≠ owner)
    (h1 : 0 < value) (h2 : dst ≠ owner) (h3 : s.token_owner id = some owner)
    (h4 : value ≤ s.balance_of owner (some id)) (h5 : s.balance_of dst (some id) < u128MAX) :
    (s.transfer_from caller dst id value dat).map
        (fun p => (p.2, p.1.token_owner id, p.1.balance_of owner (some id),
          p.1.balance_of dst (some id)))
      = some (Except.ok [PSP37Event.Transfer (some caller) (some dst) id value],
          some dst, s.balance_of owner (some id) - value, s.balance_of dst (some id) + 1) := by
  simp only [PSP37Data.balance_of] at h4 h5 ⊢
  have hcond : ¬(owner = dst ∨ value = 0) := by
    rintro (hh | hz)
    · exact h2 hh.symm
    · omega
  have hsub : checked_sub (s.balance_by_id owner id) value
      = some (s.balance_by_id owner id - value) := by
    simp only [checked_sub]
    rw [if_pos (show value ≤ s.balance_by_id owner id from h4)]
  simp only [PSP37Data.transfer_from, h3, if_neg hcond, hsub]
  by_cases hz : s.balance_by_id owner id - value = 0 <;>
  · simp only [hz, reduceIte, PSP37Data.handle_transfer_allowance_internal,
      PSP37Data.allowance_value_wrapped, ha1, ha2]
    simp only [PSP37Data.balance_of, mapInsert, mapRemove, checked_add,
      Prod.mk.injEq, h2, ne_eq, and_true, false_and, and_false, if_false]
    rw [if_pos (show (s.owned_serials_count (dst, id)).getD 0 + 1 ≤ u128MAX by omega)]
    simp [mapInsert, mapRemove, Prod.ext_iff, h2, Ne.symm h2]
    all_goals simp only [PSP37Data.balance_by_id] at hz ⊢
    all_goals omega

/-- C2 witness: the amended theorem applied to a concrete allowance-less delegated transfer from `w2s`. -/
theorem C2_witness :
    (PSP37Data.transfer_from w2s 2 1 (TokenId.U8 1) 1 []).map
        (fun p => (p.2, p.1.token_owner (TokenId.U8 1), p.1.balance_of 0 (some (TokenId.U8 1)),
          p.1.balance_of 1 (some (TokenId.U8 1))))
      = some (Except.ok [PSP37Event.Transfer (some 2) (some 1) (TokenId.U8 1) 1],
          some 1, 1, 1) :=
  C2_theorem w2s 2 1 0 (TokenId.U8 1) 1 [] rfl rfl (by decide)
    (by decide) (by decide) rfl (by decide) (by decide)

/-- C3: the claim that transfer always succeeds under the stated conditions fails when the destination per-id balance is `u128::MAX`: from `c3s` all stated premises hold, yet transfer hits the unwrap (modelled as `none`) instead of succeeding. -/
theorem C3_counterexample :
    c3s.token_owner (TokenId.U8 1) = some 0
    ∧ (1 : AccountId) ≠ 0 ∧ 0 < (1 : Nat)
    ∧ 1 ≤ c3s.balance_of 0 (some (TokenId.U8 1))
    ∧ PSP37Data.transfer c3s 0 1 (TokenId.U8 1) 1 [] = none :=
  ⟨rfl, by decide, by decide, by decide, rfl⟩

/-- C3 (amended): for every (owner, to, id, value) with positive value, destination different from owner, owner_of id = owner, owner per-id balance at least value, and additionally the destination per-id balance strictly below `u128::MAX`: transfer succeeds, the owner per-id balance decreases by exactly value, ownership moves to the destination, the destination per-id balance increases by exactly one (not by value), and exactly one Transfer event is returned with source Some owner, destination Some to and the supplied value. -/
theorem C3_theorem (s : PSP37Data) (owner dst : AccountId) (id : TokenId)
    (value : Nat) (dat : List Nat)
    (h1 : 0 < value) (h2 : dst ≠ owner) (h3 : s.token_owner id = some owner)
    (h4 : value ≤ s.balance_of owner (some id)) (h5 : s.balance_of dst (some id) < u128MAX) :
    (s.transfer owner dst id value dat).map
        (fun p => (p.2, p.1.token_owner id, p.1.balance_of owner (some id),
          p.1.balance_of dst (some id)))
      = some (Except.ok [PSP37Event.Transfer (some owner) (some dst) id value],
          some dst, s.balance_of owner (some id) - value, s.balance_of dst (some id) + 1) := by
  simp only [PSP37Data.balance_of] at h4 h5 ⊢
  have hcond : ¬(owner = dst ∨ value = 0) := by
    rintro (hh | hz)
    · exact h2 hh.symm
    · omega
  have hsub : checked_sub (s.balance_by_id owner id) value
      = some (s.balance_by_id owner id - value) := by
    simp only [checked_sub]
    rw [if_pos (show value ≤ s.balance_by_id owner id from h4)]
  simp only [PSP37Data.transfer, PSP37Data.transfer_internal, h3, if_neg hcond,
    ne_eq, not_true_eq_false, if_neg, hsub, ite_not]
  by_cases hz : s.balance_by_id owner id - value = 0 <;>
  · simp only [hz, reduceIte, PSP37Data.balance_of, mapInsert, mapRemove, checked_add,
      Prod.mk.injEq, h2, ne_eq, and_true, false_and, and_false, if_false]
    rw [if_pos (show (s.owned_serials_count (dst, id)).getD 0 + 1 ≤ u128MAX by omega)]
    simp [mapInsert, mapRemove, Prod.ext_iff, h2, Ne.symm h2]
    all_goals simp only [PSP37Data.balance_by_id] at hz ⊢
    all_goals omega

/-- C3 witness: the amended theorem applied to a concrete transfer of 2 units out of 5 from `w3s`. -/
theorem C3_witness :
    (PSP37Data.transfer w3s 0 1 (TokenId.U8 1) 2 []).map
        (fun p => (p.2, p.1.token_owner (TokenId.U8 1), p.1.balance_of 0 (some (TokenId.U8 1)),
          p.1.balance_of 1 (some (TokenId.U8 1))))
      = some (Except.ok [PSP37Event.Transfer (some 0) (some 1) (TokenId.U8 1) 2],
          some 1, 3, 1) :=
  C3_theorem w3s 0 1 (TokenId.U8 1) 2 [] (by decide) (by decide) rfl
    (by decide) (by decide)

/-- C4: the claim that a zero-value call is a no-op for any owner/id/to combination fails when the id has no owner: on the empty ledger both transfer and transfer_from with value 0 return TokenNotExists instead of success with an empty event list. -/
theorem C4_counterexample :
    PSP37Data.transfer PSP37Data.new 0 1 (TokenId.U8 1) 0 []
        = some (PSP37Data.new, Except.error PSP37Error.TokenNotExists)
    ∧ PSP37Data.transfer_from PSP37Data.new 0 1 (TokenId.U8 1) 0 []
        = some (PSP37Data.new, Except.error PSP37Error.TokenNotExists) := ⟨rfl, rfl⟩

/-- C4 (amended): whenever the id currently has an owner, if that owner equals the destination or the value is zero, both transfer and transfer_from return success with an empty event list and the state literally unchanged. The TokenNotExists check runs first, so the no-op guarantee needs the id to exist. -/
theorem C4_theorem (s : PSP37Data) (caller dst owner : AccountId) (id : TokenId)
    (value : Nat) (dat : List Nat)
    (hown : s.token_owner id = some owner)
    (h : owner = dst ∨ value = 0) :
    s.transfer caller dst id value dat = some (s, Except.ok [])
    ∧ s.transfer_from caller dst id value dat = some (s, Except.ok []) := by
  constructor
  · simp only [PSP37Data.transfer, PSP37Data.transfer_internal, hown, if_pos h]
  · simp only [PSP37Data.transfer_from, hown, if_pos h]

/-- C4 witness: the amended theorem applied to a concrete self-transfer from `w4s`. -/
theorem C4_witness :
    PSP37Data.transfer w4s 9 4 (TokenId.U8 1) 3 [] = some (w4s, Except.ok [])
    ∧ PSP37Data.transfer_from w4s 9 4 (TokenId.U8 1) 3 [] = some (w4s, Except.ok []) :=
  C4_theorem w4s 9 4 4 (TokenId.U8 1) 3 [] rfl (Or.inl rfl)

/-- C5: for every owner distinct from the operator, a blanket approve stores the sentinel `u128::MAX` at (owner, operator, None) regardless of the supplied value, overwriting any previous entry, and returns exactly one Approval event carrying the sentinel; an approve for a specific id stores and reports the caller-supplied value. -/
theorem C5_theorem (s : PSP37Data) (owner operator : AccountId) (value : Nat)
    (h : owner ≠ operator) :
    ((s.approve owner operator none value).1.operator_approvals (owner, operator, none)
        = some u128MAX
      ∧ (s.approve owner operator none value).2
        = Except.ok [PSP37Event.Approval owner operator none u128MAX])
    ∧ ∀ id : TokenId,
      (s.approve owner operator (some id) value).1.operator_approvals (owner, operator, some id)
        = some value
      ∧ (s.approve owner operator (some id) value).2
        = Except.ok [PSP37Event.Approval owner operator (some id) value] := by
  refine ⟨⟨?_, ?_⟩, fun id => ⟨?_, ?_⟩⟩ <;>
    simp [PSP37Data.approve, if_neg h, mapInsert]

/-- C5 witness: the theorem applied to blanket and per-id approvals with value 7 on the empty ledger. -/
theorem C5_witness :
    ((PSP37Data.approve PSP37Data.new 0 1 none 7).1.operator_approvals (0, 1, none)
        = some u128MAX
      ∧ (PSP37Data.approve PSP37Data.new 0 1 none 7).2
        = Except.ok [PSP37Event.Approval 0 1 none u128MAX])
    ∧ ((PSP37Data.approve PSP37Data.new 0 1 (some (TokenId.U8 1)) 7).1.operator_approvals
          (0, 1, some (TokenId.U8 1)) = some 7
      ∧ (PSP37Data.approve PSP37Data.new 0 1 (some (TokenId.U8 1)) 7).2
        = Except.ok [PSP37Event.Approval 0 1 (some (TokenId.U8 1)) 7]) :=
  ⟨(C5_theorem PSP37Data.new 0 1 7 (by decide)).1,
    (C5_theorem PSP37Data.new 0 1 7 (by decide)).2 (TokenId.U8 1)⟩

/-- C6: whenever the id has an owner, the destination differs from the owner and the value is positive, a direct transfer by a caller other than the owner fails with NotApproved and leaves the state unchanged, for every state, hence regardless of any allowance entries the caller may hold: the direct path never consults allowances. -/
theorem C6_theorem (s : PSP37Data) (caller dst owner : AccountId) (id : TokenId)
    (value : Nat) (dat : List Nat)
    (h1 : s.token_owner id = some owner) (h2 : dst ≠ owner) (h3 : 0 < value)
    (h4 : caller ≠ owner) :
    s.transfer caller dst id value dat = some (s, Except.error PSP37Error.NotApproved) := by
  have hcond : ¬(owner = dst ∨ value = 0) := by
    rintro (hh | hz)
    · exact h2 hh.symm
    · omega
  simp only [PSP37Data.transfer, PSP37Data.transfer_internal, h1, if_pos, if_neg hcond,
    ne_eq, ite_not]
  rw [if_neg (show ¬owner = caller from fun hh => h4 hh.symm)]

/-- C6 witness: the theorem applied to `w6s`, where the caller even holds a finite allowance of 100 and is still rejected. -/
theorem C6_witness :
    PSP37Data.transfer w6s 3 1 (TokenId.U8 1) 2 []
      = some (w6s, Except.error PSP37Error.NotApproved) :=
  C6_theorem w6s 3 1 0 (TokenId.U8 1) 2 [] rfl (by decide) (by decide) (by decide)

/-- C7: the claim that the stored finite allowance strictly decreases on every successful delegated transfer fails on the success path that transfers nothing: from `c7s`, transfer_from with destination equal to the owner succeeds (no-op, empty event list) while the finite allowance of 5 stays untouched even though the transferred value 5 is positive and the caller is not the owner. -/
theorem C7_counterexample :
    PSP37Data.transfer_from c7s 2 0 (TokenId.U8 1) 5 [] = some (c7s, Except.ok [])
    ∧ c7s.allowance_value_wrapped 0 2 (TokenId.U8 1) = AllowanceValue.Finite 5
    ∧ (2 : AccountId) ≠ 0 ∧ 0 < (5 : Nat)
    ∧ c7s.operator_approvals (0, 2, some (TokenId.U8 1)) = some 5 :=
  ⟨rfl, rfl, by decide, by decide, rfl⟩

/-- C7 (amended): on every successful transfer_from that actually performs a transfer (non-empty event list), if the caller is not the owner and the resolved allowance is a finite fin, then value is at most fin, the stored allowance becomes exactly fin - value (the prior NotApproved check makes the saturating subtraction exact and it can never go below zero) and this is a strict decrease; when the resolved allowance is the blanket (infinite) entry or the caller is the owner, the allowance mapping is unchanged. -/
theorem C7_theorem (s : PSP37Data) (caller dst owner : AccountId)
    (id : TokenId) (value : Nat) (dat : List Nat) (s' : PSP37Data) (evs : List PSP37Event)
    (hown : s.token_owner id = some owner)
    (hsucc : s.transfer_from caller dst id value dat = some (s', Except.ok evs))
    (hne : evs ≠ []) :
    (∀ fin, s.allowance_value_wrapped owner caller id = AllowanceValue.Finite fin →
        caller ≠ owner →
        value ≤ fin
        ∧ s'.operator_approvals (owner, caller, some id) = some (fin - value)
        ∧ fin - value < fin)
    ∧ (s.allowance_value_wrapped owner caller id = AllowanceValue.Infinite →
        s'.operator_approvals = s.operator_approvals)
    ∧ (caller = owner → s'.operator_approvals = s.operator_approvals) := by
  simp only [PSP37Data.transfer_from, hown] at hsucc
  split at hsucc
  · simp only [Option.some.injEq, Prod.mk.injEq] at hsucc
    exact absurd hsucc.2 (fun hh => hne (by cases hh; rfl))
  · rename_i hcond
    split at hsucc
    · simp at hsucc
    · rename_i ba hba
      split at hsucc
      · simp at hsucc
      · rename_i s3 u heq
        split at hsucc
        · simp at hsucc
        · rename_i nb hnb
          simp only [Option.some.injEq, Prod.mk.injEq] at hsucc
          obtain ⟨h1, _⟩ := hsucc
          subst h1
          have hv0 : 0 < value := by
            rcases Nat.eq_zero_or_pos value with hh | hh
            · exact absurd (Or.inr hh) hcond
            · exact hh
          split at heq <;>
          · have hcc := handle_allowance_ok_cases _ owner caller id value s3 u heq
            refine ⟨?_, ?_, ?_⟩
            · intro fin hfin hco
              have hd := hcc.2.2.2 fin hfin hco
              refine ⟨hd.1, ?_, by omega⟩
              rw [hd.2]
              simp [mapInsert]
            · intro hinf
              rw [hcc.1 hinf]
            · intro hceq
              rw [hcc.2.2.1 hceq]

/-- C7 witness: the amended theorem applied to a concrete delegated transfer of 3 units against a finite allowance of 4 from `w7s`. -/
theorem C7_witness :
    3 ≤ 4
    ∧ (postOf (PSP37Data.transfer_from w7s 2 1 (TokenId.U8 1) 3 [])).operator_approvals
        (0, 2, some (TokenId.U8 1)) = some 1
    ∧ 4 - 3 < 4 := by
  have hd := (C7_theorem w7s 2 1 0 (TokenId.U8 1) 3 []
      (postOf (PSP37Data.transfer_from w7s 2 1 (TokenId.U8 1) 3 []))
      [PSP37Event.Transfer (some 2) (some 1) (TokenId.U8 1) 3] rfl rfl
      (by decide)).1 4 rfl (by decide)
  exact ⟨hd.1, hd.2.1, hd.2.2⟩

/-- C8: transfer and transfer_from are total exactly when the destination per-id balance is strictly below `u128::MAX`; when a transfer would otherwise succeed but the destination balance equals `u128::MAX`, the destination increment `checked_add(1).unwrap()` panics (modelled as `none`) instead of returning an error. -/
theorem C8_theorem (s : PSP37Data) (caller dst : AccountId) (id : TokenId) (value : Nat)
    (dat : List Nat) :
    (s.balance_of dst (some id) < u128MAX →
      s.transfer caller dst id value dat ≠ none
      ∧ s.transfer_from caller dst id value dat ≠ none)
    ∧ (∀ owner, s.token_owner id = some owner → dst ≠ owner → 0 < value →
        value ≤ s.balance_of owner (some id) → s.balance_of dst (some id) = u128MAX →
        (caller = owner → s.transfer caller dst id value dat = none)
        ∧ ((∀ fin, s.allowance_value_wrapped owner caller id = AllowanceValue.Finite fin →
              caller = owner ∨ value ≤ fin) →
            s.transfer_from caller dst id value dat = none)) := by
  constructor
  · intro h5
    exact ⟨transfer_total s caller dst id value dat h5,
      transfer_from_total s caller dst id value dat h5⟩
  · intro owner hown hod hv hbal hmax
    constructor
    · intro hc
      subst hc
      exact transfer_overflow s caller dst id value dat hown hod hv hbal hmax
    · intro hallow
      exact transfer_from_overflow s caller dst owner id value dat hown hod hv hbal hmax hallow

/-- C8 witness: both directions applied to concrete states: `c8s` (destination at the maximum) panics for the direct and the delegated transfer, and `w8s` (small destination balance) cannot panic. -/
theorem C8_witness :
    PSP37Data.transfer c8s 0 1 (TokenId.U8 1) 1 [] = none
    ∧ PSP37Data.transfer_from c8s 2 1 (TokenId.U8 1) 1 [] = none
    ∧ PSP37Data.transfer w8s 0 1 (TokenId.U8 1) 1 [] ≠ none := by
  refine ⟨?_, ?_, ?_⟩
  · exact ((C8_theorem c8s 0 1 (TokenId.U8 1) 1 []).2 0 rfl (by decide) (by decide)
      (by decide) rfl).1 rfl
  · exact ((C8_theorem c8s 2 1 (TokenId.U8 1) 1 []).2 0 rfl (by decide) (by decide)
      (by decide) rfl).2
      (fun fin hfin =>
        AllowanceValue.noConfusion
          (show AllowanceValue.None = AllowanceValue.Finite fin from hfin))
  · exact ((C8_theorem w8s 0 1 (TokenId.U8 1) 1 []).1 (by decide)).1

/-- C9: the contract-level transfer_from message never reads the authenticated environment caller: two invocations with different environment callers but identical arguments and state produce identical results, because the `from` argument is forwarded as the caller/delegate to the ledger. -/
theorem C9_theorem (c1 c2 : AccountId) (t : PSP37Data) (src dst : AccountId) (id : TokenId)
    (value : Nat) (dat : List Nat) :
    Token.transfer_from c1 t src dst id value dat = Token.transfer_from c2 t src dst id value dat
    ∧ (Token.transfer_from c1 t src dst id value dat).map (fun p => p.1)
        = (t.transfer_from src dst id value dat).map (fun p => p.1) := by
  refine ⟨rfl, ?_⟩
  simp only [Token.transfer_from]
  rcases ht : t.transfer_from src dst id value dat with _ | ⟨s', r⟩
  · rfl
  · rcases r <;> rfl

/-- C10: the per-id total supply mapping and the scalar token count are unchanged by every ledger operation, on success and error alike, so total_supply returns the same value before and after any call, for every id and for the None query. -/
theorem C10_theorem (s : PSP37Data) (c : OpCall) (s' : PSP37Data)
    (r : Except PSP37Error (List PSP37Event)) (h : runOp s c = some (s', r)) :
    s'.total_supply_by_id = s.total_supply_by_id
    ∧ s'.total_token_count = s.total_token_count
    ∧ ∀ oid, s'.total_supply oid = s.total_supply oid := by
  have hf := runOp_supply_frame s c s' r h
  refine ⟨hf.1, hf.2, ?_⟩
  intro oid
  cases oid with
  | none => exact hf.2
  | some i => simp [PSP37Data.total_supply, hf.1]

/-- C10 witness: the theorem applied to a concrete blanket approval on the empty ledger. -/
theorem C10_witness :
    (postOf (runOp PSP37Data.new (OpCall.approveOp 0 1 none 5))).total_supply
        (some (TokenId.U8 1))
      = PSP37Data.new.total_supply (some (TokenId.U8 1))
    ∧ (postOf (runOp PSP37Data.new (OpCall.approveOp 0 1 none 5))).total_supply none
      = PSP37Data.new.total_supply none := by
  have h := C10_theorem PSP37Data.new (OpCall.approveOp 0 1 none 5)
      (postOf (runOp PSP37Data.new (OpCall.approveOp 0 1 none 5)))
      (Except.ok [PSP37Event.Approval 0 1 none u128MAX]) rfl
  exact ⟨h.2.2 (some (TokenId.U8 1)), h.2.2 none⟩

